import Mathlib

/-!
Verification of the `dematerialize` operator (src/internal/operators/dematerialize.ts)
against its design specification.

The operator's own code (the `dematerialize` factory, `DeMaterializeOperator.call`,
and `DeMaterializeSubscriber._next`, which is `value.observe(this.destination)`)
is embedded from the source file.  The `Notification` class and the base
`Subscriber` class are imported by the source file but are not part of the
given fragment, so they are modelled from the specification (sections 3, 4.1,
4.3 and 5 of the design document): a Notification is a tagged value with kinds
Next/Error/Complete that replays itself by exactly one delegated channel call,
and a Subscriber owns an Active/Closed state, forwards events downstream while
Active, transitions to Closed on the first terminal event or on an explicit
consumer-side unsubscribe, and drops everything once Closed.

Events are recorded in an explicit delivery log so that theorems can speak
about which downstream calls happened and in which order.
-/

/-- A live protocol event on the three delivery channels:
a `next` value, an `error`, or a `complete` signal. -/
inductive Emission (α ε : Type) where
  | next (value : α)
  | error (err : ε)
  | complete
deriving DecidableEq, Repr

/-- Modelled from the spec: `Notification<T>` is an immutable tagged value
representing exactly one protocol event, with `kind ∈ {Next, Error, Complete}`,
a payload `value` active only for Next and an opaque `error` active only for
Error (spec section 3).  The tagged-union rendering makes the kind/payload
invariant hold by construction. -/
inductive Notification (α ε : Type) where
  | next (value : α)
  | error (err : ε)
  | complete
deriving DecidableEq, Repr

/-- `Emission.isTerminal`: an error or complete event is terminal. -/
def Emission.isTerminal : Emission α ε → Bool
  | .next _ => false
  | .error _ => true
  | .complete => true

/-- `Emission.isError`: recognizes error events. -/
def Emission.isError : Emission α ε → Bool
  | .error _ => true
  | _ => false

/-- Modelled from the spec: the downstream `Subscriber` (spec section 3),
the per-subscription sink.  `closed` is its {Active, Closed} state
(`closed = false` is Active).  `delivered` is an instrumentation log of the
events actually forwarded to the consumer, in order.  `cancelOn` models the
consumer-side handler: when the handler for a next value `v` unsubscribes
re-entrantly from within the call (spec section 5, Cancellation),
`cancelOn v = true` and the subscriber transitions to Closed during that
delivery. -/
structure Subscriber (α ε : Type) where
  closed : Bool
  delivered : List (Emission α ε)
  cancelOn : α → Bool

/-- Modelled from the spec: the Subscriber's next channel.  While Active it
forwards the value downstream (logged); a re-entrant unsubscribe from within
the consumer's handler closes the subscriber.  Once Closed, the delivery is
silently dropped (spec sections 4.3 and 7). -/
def Subscriber.next (s : Subscriber α ε) (v : α) : Subscriber α ε :=
  if s.closed then s
  else { s with delivered := s.delivered ++ [Emission.next v], closed := s.cancelOn v }

/-- Modelled from the spec: the Subscriber's error channel.  While Active it
forwards the error downstream and transitions Active → Closed (first terminal
event); once Closed the delivery is dropped. -/
def Subscriber.error (s : Subscriber α ε) (e : ε) : Subscriber α ε :=
  if s.closed then s
  else { s with delivered := s.delivered ++ [Emission.error e], closed := true }

/-- Modelled from the spec: the Subscriber's complete channel.  While Active
it forwards completion downstream and transitions Active → Closed; once Closed
the delivery is dropped. -/
def Subscriber.complete (s : Subscriber α ε) : Subscriber α ε :=
  if s.closed then s
  else { s with delivered := s.delivered ++ [Emission.complete], closed := true }

/-- An abstract sink exposing the three delivery channels over a state `σ`,
used to express that `Notification.observe` performs exactly one delegated
call determined by the kind. -/
structure ChannelSink (α ε σ : Type) where
  onNext : σ → α → σ
  onError : σ → ε → σ
  onComplete : σ → σ

/-- Modelled from the spec: `replay(sink)` (named `observe` in the code) is a
pure dispatch on `kind` performing exactly one delegated channel call —
Next → sink.next(value), Error → sink.error(error), Complete → sink.complete()
(spec section 4.1). -/
def Notification.observeWith (n : Notification α ε) (o : ChannelSink α ε σ) (s : σ) : σ :=
  match n with
  | .next v => o.onNext s v
  | .error e => o.onError s e
  | .complete => o.onComplete s

/-- The concrete Subscriber's three channels packaged as a `ChannelSink`. -/
def Subscriber.channels : ChannelSink α ε (Subscriber α ε) :=
  ⟨Subscriber.next, Subscriber.error, Subscriber.complete⟩

/-- Modelled from the spec: `notification.observe(destination)` dispatches to
the destination Subscriber's channel matching the notification's kind. -/
def Notification.observe (n : Notification α ε) (dest : Subscriber α ε) : Subscriber α ε :=
  n.observeWith Subscriber.channels dest

/-- A sink that merely records which channel was called and with what payload:
used to state that `observe` makes exactly one delegated call. -/
def traceSink : ChannelSink α ε (List (Emission α ε)) :=
  ⟨fun l v => l ++ [Emission.next v],
   fun l e => l ++ [Emission.error e],
   fun l => l ++ [Emission.complete]⟩

/-- The sequence of delegated channel calls (with payloads) that replaying a
notification performs on a sink. -/
def Notification.dispatchTrace (n : Notification α ε) : List (Emission α ε) :=
  n.observeWith traceSink []

/-- Decoding a Notification back into the live event it reifies. -/
def Notification.toEmission : Notification α ε → Emission α ε
  | .next v => Emission.next v
  | .error e => Emission.error e
  | .complete => Emission.complete

/-- Modelled from the spec: the `materialize` encoder (the external producer,
spec section 3, Lifecycle) wrapping one live event as a Notification. -/
def Emission.toNotification : Emission α ε → Notification α ε
  | .next v => Notification.next v
  | .error e => Notification.error e
  | .complete => Notification.complete

/-- The `DeMaterializeSubscriber` of the source: a Subscriber bound to a
downstream `destination`, with its own Active/Closed state inherited from the
base Subscriber class.  Only its protected `_next` is overridden in the
source; `_error`/`_complete` are the base class defaults. -/
structure DeMaterializeSubscriber (α ε : Type) where
  closed : Bool
  destination : Subscriber α ε

/-- Upstream next delivery.  The Active/Closed guard is the base Subscriber's
public `next` (modelled from the spec); the body is the source's override
`_next(value) { value.observe(this.destination); }`
(dematerialize.ts lines 72–74). -/
def DeMaterializeSubscriber.next (s : DeMaterializeSubscriber α ε)
    (value : Notification α ε) : DeMaterializeSubscriber α ε :=
  if s.closed then s
  else { s with destination := value.observe s.destination }

/-- Upstream direct error.  Not overridden in the source: this is the base
Subscriber default (modelled from the spec, section 4.2) — transition to
Closed and forward the error unchanged to the destination's error channel. -/
def DeMaterializeSubscriber.error (s : DeMaterializeSubscriber α ε) (e : ε) :
    DeMaterializeSubscriber α ε :=
  if s.closed then s
  else { closed := true, destination := s.destination.error e }

/-- Upstream direct complete.  Not overridden in the source: the base
Subscriber default (modelled from the spec, section 4.2) — transition to
Closed and forward completion unchanged to the destination's complete
channel. -/
def DeMaterializeSubscriber.complete (s : DeMaterializeSubscriber α ε) :
    DeMaterializeSubscriber α ε :=
  if s.closed then s
  else { closed := true, destination := s.destination.complete }

/-- One upstream event delivered to the DeMaterializeSubscriber.  Upstream
next events carry Notification values. -/
def DeMaterializeSubscriber.deliver (s : DeMaterializeSubscriber α ε) :
    Emission (Notification α ε) ε → DeMaterializeSubscriber α ε
  | .next n => s.next n
  | .error e => s.error e
  | .complete => s.complete

/-- A finite synchronous upstream sequence delivered in order
(spec section 5: delivery is single-threaded and synchronous). -/
def DeMaterializeSubscriber.run (s : DeMaterializeSubscriber α ε)
    (evs : List (Emission (Notification α ε) ε)) : DeMaterializeSubscriber α ε :=
  evs.foldl DeMaterializeSubscriber.deliver s

/-- The `DeMaterializeOperator` of the source (dematerialize.ts lines 56–60):
a class with no instance fields. -/
structure DeMaterializeOperator where

/-- `DeMaterializeOperator.call`: constructs a fresh `DeMaterializeSubscriber`
bound to the given downstream subscriber (with which the upstream source is
then subscribed).  The fresh subscriber starts Active. -/
def DeMaterializeOperator.call (_op : DeMaterializeOperator)
    (subscriber : Subscriber α ε) : DeMaterializeSubscriber α ε :=
  ⟨false, subscriber⟩

/-- `dematerialize()` applied to one subscription: lifting with a
`DeMaterializeOperator` and subscribing means the upstream events are run
through the subscriber built by `call` (dematerialize.ts lines 50–54). -/
def dematerialize (downstream : Subscriber α ε)
    (evs : List (Emission (Notification α ε) ε)) : DeMaterializeSubscriber α ε :=
  DeMaterializeSubscriber.run (DeMaterializeOperator.call ⟨⟩ downstream) evs

/-- A consumer handler that never unsubscribes re-entrantly. -/
def neverCancel : α → Bool := fun _ => false

/-- A fresh Active downstream subscriber with an empty log and a
non-unsubscribing consumer. -/
def freshSubscriber : Subscriber α ε := ⟨false, [], neverCancel⟩

/-- Truncation after the first terminal event: the result keeps all events up
to and including the first error/complete and drops everything after it. -/
def truncAfterTerminal : List (Emission α ε) → List (Emission α ε)
  | [] => []
  | e :: rest => if e.isTerminal then [e] else e :: truncAfterTerminal rest

/-- A downstream log is well terminated when at most one terminal event
occurs and nothing follows it. -/
def wellFormedLog : List (Emission α ε) → Bool
  | [] => true
  | e :: rest => if e.isTerminal then rest.isEmpty else wellFormedLog rest

/-- Decoding one upstream event: a wrapped Notification decodes to the event
it reifies, a direct error/complete stays itself. -/
def decodeUp : Emission (Notification α ε) ε → Emission α ε
  | .next n => n.toEmission
  | .error e => Emission.error e
  | .complete => Emission.complete

/-- The arguments of the next calls of a log, in order. -/
def nextValues (l : List (Emission α ε)) : List α :=
  l.filterMap (fun e => match e with | .next v => some v | _ => none)

/-- A JavaScript runtime error class; calling `observe` on a value that is
not a Notification raises a TypeError. -/
inductive JsError where
  | typeError
deriving DecidableEq, Repr

/-- A raw value arriving on the upstream next channel before the
(unvalidated) precondition that it is a Notification: either an actual
Notification or anything else (e.g. `null`), which has no `observe`
operation. -/
inductive RawValue (α ε : Type) where
  | notif (n : Notification α ε)
  | other

/-- Upstream next delivery with the raw (unvalidated) value, making the
possible runtime type error explicit: the base Subscriber guard drops the
delivery when Closed; otherwise the source's `value.observe(this.destination)`
runs, which on a non-Notification value raises an uncaught TypeError
(modelled as `Except.error`). -/
def DeMaterializeSubscriber.nextRaw (s : DeMaterializeSubscriber α ε)
    (v : RawValue α ε) : Except JsError (DeMaterializeSubscriber α ε) :=
  if s.closed then Except.ok s
  else
    match v with
    | .notif n => Except.ok { s with destination := n.observe s.destination }
    | .other => Except.error JsError.typeError

/-- Two independent subscriptions to the same stage, with an interleaved
schedule of upstream events: `true`-tagged events go to the first
subscription, `false`-tagged ones to the second. -/
def runPair (w : DeMaterializeSubscriber α ε × DeMaterializeSubscriber α ε)
    (sched : List (Bool × Emission (Notification α ε) ε)) :
    DeMaterializeSubscriber α ε × DeMaterializeSubscriber α ε :=
  sched.foldl
    (fun w te => if te.1 then (w.1.deliver te.2, w.2) else (w.1, w.2.deliver te.2)) w

/-- The events of an interleaved schedule belonging to one subscription. -/
def projSched (b : Bool) (sched : List (Bool × Emission (Notification α ε) ε)) :
    List (Emission (Notification α ε) ε) :=
  sched.filterMap (fun te => if te.1 = b then some te.2 else none)

/-! ### Basic lemmas about Closed-state absorption -/

theorem Subscriber.next_closed (s : Subscriber α ε) (v : α) (h : s.closed = true) :
    s.next v = s := by
  simp [Subscriber.next, h]

theorem Subscriber.error_closed (s : Subscriber α ε) (e : ε) (h : s.closed = true) :
    s.error e = s := by
  simp [Subscriber.error, h]

theorem Subscriber.complete_closed (s : Subscriber α ε) (h : s.closed = true) :
    s.complete = s := by
  simp [Subscriber.complete, h]

theorem Notification.observe_closed (n : Notification α ε) (d : Subscriber α ε)
    (h : d.closed = true) : n.observe d = d := by
  cases n <;>
    simp [Notification.observe, Notification.observeWith, Subscriber.channels,
      Subscriber.next_closed, Subscriber.error_closed, Subscriber.complete_closed, h]

theorem DeMaterializeSubscriber.deliver_closed (s : DeMaterializeSubscriber α ε)
    (ev : Emission (Notification α ε) ε) (h : s.closed = true) : s.deliver ev = s := by
  cases ev <;>
    simp [DeMaterializeSubscriber.deliver, DeMaterializeSubscriber.next,
      DeMaterializeSubscriber.error, DeMaterializeSubscriber.complete, h]

theorem DeMaterializeSubscriber.run_closed (s : DeMaterializeSubscriber α ε)
    (evs : List (Emission (Notification α ε) ε)) (h : s.closed = true) :
    s.run evs = s := by
  induction evs with
  | nil => rfl
  | cons ev rest ih =>
      show DeMaterializeSubscriber.run (s.deliver ev) rest = s
      rw [DeMaterializeSubscriber.deliver_closed s ev h]
      exact ih

theorem DeMaterializeSubscriber.deliver_destination_closed
    (s : DeMaterializeSubscriber α ε) (ev : Emission (Notification α ε) ε)
    (h : s.destination.closed = true) :
    (s.deliver ev).destination = s.destination := by
  cases ev with
  | next n =>
      by_cases hc : s.closed
      · simp [DeMaterializeSubscriber.deliver, DeMaterializeSubscriber.next, hc]
      · simp [DeMaterializeSubscriber.deliver, DeMaterializeSubscriber.next, hc,
          Notification.observe_closed _ _ h]
  | error e =>
      by_cases hc : s.closed
      · simp [DeMaterializeSubscriber.deliver, DeMaterializeSubscriber.error, hc]
      · simp [DeMaterializeSubscriber.deliver, DeMaterializeSubscriber.error, hc,
          Subscriber.error_closed _ _ h]
  | complete =>
      by_cases hc : s.closed
      · simp [DeMaterializeSubscriber.deliver, DeMaterializeSubscriber.complete, hc]
      · simp [DeMaterializeSubscriber.deliver, DeMaterializeSubscriber.complete, hc,
          Subscriber.complete_closed _ h]

theorem DeMaterializeSubscriber.run_destination_closed
    (s : DeMaterializeSubscriber α ε) (evs : List (Emission (Notification α ε) ε))
    (h : s.destination.closed = true) :
    (s.run evs).destination = s.destination := by
  induction evs generalizing s with
  | nil => rfl
  | cons ev rest ih =>
      show (DeMaterializeSubscriber.run (s.deliver ev) rest).destination = s.destination
      have hd := DeMaterializeSubscriber.deliver_destination_closed s ev h
      rw [ih (s.deliver ev) (by rw [hd]; exact h), hd]

theorem DeMaterializeSubscriber.run_nil (s : DeMaterializeSubscriber α ε) :
    s.run [] = s := rfl

theorem DeMaterializeSubscriber.run_cons (s : DeMaterializeSubscriber α ε)
    (ev : Emission (Notification α ε) ε) (rest : List (Emission (Notification α ε) ε)) :
    s.run (ev :: rest) = (s.deliver ev).run rest := rfl

/-- Decoding inverts encoding: a wrapped live event decodes to itself. -/
theorem toEmission_toNotification (e : Emission α ε) :
    e.toNotification.toEmission = e := by
  cases e <;> rfl

/-- Master characterization of one dematerialize subscription with a
non-unsubscribing consumer: whatever the upstream sequence (wrapped
Notifications, direct errors, direct completes, in any mix), the downstream
log is exactly the decoded upstream sequence truncated after its first
terminal event. -/
theorem run_delivered_eq (evs : List (Emission (Notification α ε) ε))
    (L : List (Emission α ε)) :
    (DeMaterializeSubscriber.run ⟨false, ⟨false, L, neverCancel⟩⟩ evs).destination.delivered
      = L ++ truncAfterTerminal (evs.map decodeUp) := by
  induction evs generalizing L with
  | nil => simp [DeMaterializeSubscriber.run_nil, truncAfterTerminal]
  | cons ev rest ih =>
      rw [DeMaterializeSubscriber.run_cons]
      cases ev with
      | next n =>
          cases n with
          | next v =>
              have hstep :
                  DeMaterializeSubscriber.deliver
                      ⟨false, ⟨false, L, neverCancel⟩⟩ (Emission.next (Notification.next v))
                    = ⟨false, ⟨false, L ++ [Emission.next v], neverCancel⟩⟩ := by
                simp [DeMaterializeSubscriber.deliver, DeMaterializeSubscriber.next,
                  Notification.observe, Notification.observeWith, Subscriber.channels,
                  Subscriber.next, neverCancel]
              rw [hstep, ih]
              simp [decodeUp, Notification.toEmission, truncAfterTerminal, Emission.isTerminal]
          | error e =>
              have hstep :
                  DeMaterializeSubscriber.deliver
                      ⟨false, ⟨false, L, neverCancel⟩⟩ (Emission.next (Notification.error e))
                    = ⟨false, ⟨true, L ++ [Emission.error e], neverCancel⟩⟩ := by
                simp [DeMaterializeSubscriber.deliver, DeMaterializeSubscriber.next,
                  Notification.observe, Notification.observeWith, Subscriber.channels,
                  Subscriber.error]
              rw [hstep,
                DeMaterializeSubscriber.run_destination_closed
                  ⟨false, ⟨true, L ++ [Emission.error e], neverCancel⟩⟩ rest rfl]
              simp [decodeUp, Notification.toEmission, truncAfterTerminal, Emission.isTerminal]
          | complete =>
              have hstep :
                  DeMaterializeSubscriber.deliver
                      ⟨false, ⟨false, L, neverCancel⟩⟩ (Emission.next Notification.complete)
                    = ⟨false, ⟨true, L ++ [Emission.complete], neverCancel⟩⟩ := by
                simp [DeMaterializeSubscriber.deliver, DeMaterializeSubscriber.next,
                  Notification.observe, Notification.observeWith, Subscriber.channels,
                  Subscriber.complete]
              rw [hstep,
                DeMaterializeSubscriber.run_destination_closed
                  ⟨false, ⟨true, L ++ [Emission.complete], neverCancel⟩⟩ rest rfl]
              simp [decodeUp, Notification.toEmission, truncAfterTerminal, Emission.isTerminal]
      | error e =>
          have hstep :
              DeMaterializeSubscriber.deliver
                  ⟨false, ⟨false, L, neverCancel⟩⟩ (Emission.error e)
                = ⟨true, ⟨true, L ++ [Emission.error e], neverCancel⟩⟩ := by
            simp [DeMaterializeSubscriber.deliver, DeMaterializeSubscriber.error,
              Subscriber.error]
          rw [hstep,
            DeMaterializeSubscriber.run_closed
              ⟨true, ⟨true, L ++ [Emission.error e], neverCancel⟩⟩ rest rfl]
          simp [decodeUp, truncAfterTerminal, Emission.isTerminal]
      | complete =>
          have hstep :
              DeMaterializeSubscriber.deliver
                  ⟨false, ⟨false, L, neverCancel⟩⟩ Emission.complete
                = ⟨true, ⟨true, L ++ [Emission.complete], neverCancel⟩⟩ := by
            simp [DeMaterializeSubscriber.deliver, DeMaterializeSubscriber.complete,
              Subscriber.complete]
          rw [hstep,
            DeMaterializeSubscriber.run_closed
              ⟨true, ⟨true, L ++ [Emission.complete], neverCancel⟩⟩ rest rfl]
          simp [decodeUp, truncAfterTerminal, Emission.isTerminal]

/-- C1: Round-trip law: for any finite sequence of live events, encoding each
event as a Notification and delivering the Notifications to a fresh
dematerialize subscription reproduces exactly that sequence on the downstream
sink, in order, truncated after the first Error or Complete event. -/
theorem roundtrip_law (E : List (Emission α ε)) :
    (dematerialize freshSubscriber
        (E.map (fun e => Emission.next e.toNotification))).destination.delivered
      = truncAfterTerminal E := by
  unfold dematerialize DeMaterializeOperator.call freshSubscriber
  rw [run_delivered_eq]
  have hcomp : (decodeUp ∘ fun e : Emission α ε => Emission.next e.toNotification) = id :=
    funext fun e => toEmission_toNotification e
  rw [List.map_map, hcomp, List.map_id, List.nil_append]

/-- C2: Replay dispatch: replaying a well-formed Notification onto a sink
performs exactly one delegated channel call, determined by the kind and
carrying the kind's payload; and the dematerialize subscriber's next handler
is exactly this replay applied to its destination. -/
theorem replay_dispatch (n : Notification α ε) :
    n.dispatchTrace = [n.toEmission]
    ∧ ∀ s : DeMaterializeSubscriber α ε, s.closed = false →
        (s.next n).destination = n.observe s.destination := by
  constructor
  · cases n <;> rfl
  · intro s hs
    simp [DeMaterializeSubscriber.next, hs]

theorem replay_dispatch_witness :
    (Notification.error (7 : Nat) : Notification Nat Nat).dispatchTrace
        = [Emission.error 7]
    ∧ ((DeMaterializeOperator.call ⟨⟩ (freshSubscriber : Subscriber Nat Nat)).next
          (Notification.error 7)).destination
        = (Notification.error 7).observe freshSubscriber :=
  ⟨(replay_dispatch (Notification.error 7)).1,
   (replay_dispatch (Notification.error 7)).2 (DeMaterializeOperator.call ⟨⟩ freshSubscriber) rfl⟩

/-- C6: Idempotent drop: delivering any event (next with any Notification,
error, or complete) to a dematerialize Subscriber already in Closed state
changes nothing — in particular no downstream channel call is made. -/
theorem idempotent_drop (s : DeMaterializeSubscriber α ε)
    (ev : Emission (Notification α ε) ε) (h : s.closed = true) :
    s.deliver ev = s ∧ (s.deliver ev).destination.delivered = s.destination.delivered := by
  have hd := DeMaterializeSubscriber.deliver_closed s ev h
  exact ⟨hd, by rw [hd]⟩

theorem idempotent_drop_witness :
    DeMaterializeSubscriber.deliver
        (⟨true, freshSubscriber⟩ : DeMaterializeSubscriber Nat Nat)
        (Emission.next (Notification.next 3))
      = ⟨true, freshSubscriber⟩ :=
  (idempotent_drop ⟨true, freshSubscriber⟩ (Emission.next (Notification.next 3)) rfl).1

theorem runPair_eq (w : DeMaterializeSubscriber α ε × DeMaterializeSubscriber α ε)
    (sched : List (Bool × Emission (Notification α ε) ε)) :
    runPair w sched
      = (w.1.run (projSched true sched), w.2.run (projSched false sched)) := by
  induction sched generalizing w with
  | nil => rfl
  | cons te rest ih =>
      obtain ⟨b, ev⟩ := te
      cases b with
      | true =>
          show runPair (w.1.deliver ev, w.2) rest = _
          rw [ih (w.1.deliver ev, w.2)]
          simp [projSched, DeMaterializeSubscriber.run_cons]
      | false =>
          show runPair (w.1, w.2.deliver ev) rest = _
          rw [ih (w.1, w.2.deliver ev)]
          simp [projSched, DeMaterializeSubscriber.run_cons]

/-- C7: Statelessness of the stage: the operator (a field-less value)
constructs on each call a fresh Active subscriber bound to that call's
downstream, and under any interleaved schedule of upstream events two
subscriptions evolve exactly as they would in isolation, each seeing only
its own events — no shared state, no cross-subscription effect on delivery
or closed state. -/
theorem stage_statelessness (op1 op2 : DeMaterializeOperator)
    (d1 d2 : Subscriber α ε)
    (sched : List (Bool × Emission (Notification α ε) ε)) :
    op1.call d1 = ⟨false, d1⟩
    ∧ runPair (op1.call d1, op2.call d2) sched
        = (DeMaterializeSubscriber.run (op1.call d1) (projSched true sched),
           DeMaterializeSubscriber.run (op2.call d2) (projSched false sched)) :=
  ⟨rfl, runPair_eq (op1.call d1, op2.call d2) sched⟩

/-- C8: Re-entrant unsubscribe: if the downstream consumer unsubscribes from
within the next delivery of a value, that value is the last thing delivered —
no later event of the subscription reaches the sink, whatever comes
afterwards upstream. -/
theorem reentrant_unsubscribe (v : α) (p : α → Bool)
    (evs : List (Emission (Notification α ε) ε)) (hp : p v = true) :
    (DeMaterializeSubscriber.run ⟨false, ⟨false, [], p⟩⟩
        (Emission.next (Notification.next v) :: evs)).destination.delivered
      = [Emission.next v] := by
  rw [DeMaterializeSubscriber.run_cons]
  have hstep :
      DeMaterializeSubscriber.deliver
          (⟨false, ⟨false, [], p⟩⟩ : DeMaterializeSubscriber α ε)
          (Emission.next (Notification.next v))
        = ⟨false, ⟨true, [Emission.next v], p⟩⟩ := by
    simp [DeMaterializeSubscriber.deliver, DeMaterializeSubscriber.next,
      Notification.observe, Notification.observeWith, Subscriber.channels,
      Subscriber.next, hp]
  rw [hstep,
    DeMaterializeSubscriber.run_destination_closed
      ⟨false, ⟨true, [Emission.next v], p⟩⟩ evs rfl]

theorem reentrant_unsubscribe_witness :
    (DeMaterializeSubscriber.run
        (⟨false, ⟨false, [], fun n => n == 0⟩⟩ : DeMaterializeSubscriber Nat Nat)
        [Emission.next (Notification.next 0), Emission.next (Notification.next 1)]
      ).destination.delivered = [Emission.next 0] :=
  reentrant_unsubscribe 0 (fun n => n == 0)
    [Emission.next (Notification.next 1)] rfl

theorem wellFormedLog_append (l : List (Emission α ε)) (e : Emission α ε)
    (h : l.all (fun x => !x.isTerminal) = true) :
    wellFormedLog (l ++ [e]) = true := by
  induction l with
  | nil => cases e <;> simp [wellFormedLog, Emission.isTerminal]
  | cons x xs ih =>
      simp only [List.all_cons, Bool.and_eq_true, Bool.not_eq_true'] at h
      simp [wellFormedLog, h.1, ih h.2]

/-- The state invariant of the downstream sink: its log is well terminated,
and while it is still Active no terminal event has been logged. -/
def SinkInv (d : Subscriber α ε) : Prop :=
  wellFormedLog d.delivered = true
  ∧ (d.closed = false → d.delivered.all (fun x => !x.isTerminal) = true)

theorem sinkInv_next (d : Subscriber α ε) (v : α) (h : SinkInv d) :
    SinkInv (d.next v) := by
  obtain ⟨h1, h2⟩ := h
  cases hc : d.closed with
  | true => rw [Subscriber.next_closed d v hc]; exact ⟨h1, h2⟩
  | false =>
      have hall := h2 hc
      constructor
      · simpa [Subscriber.next, hc] using
          wellFormedLog_append d.delivered (Emission.next v) hall
      · intro _
        simp [Subscriber.next, hc, List.all_append, Emission.isTerminal]
        simpa using hall

theorem sinkInv_error (d : Subscriber α ε) (e : ε) (h : SinkInv d) :
    SinkInv (d.error e) := by
  obtain ⟨h1, h2⟩ := h
  cases hc : d.closed with
  | true => rw [Subscriber.error_closed d e hc]; exact ⟨h1, h2⟩
  | false =>
      constructor
      · simpa [Subscriber.error, hc] using
          wellFormedLog_append d.delivered (Emission.error e) (h2 hc)
      · intro hcontra
        simp [Subscriber.error, hc] at hcontra

theorem sinkInv_complete (d : Subscriber α ε) (h : SinkInv d) :
    SinkInv d.complete := by
  obtain ⟨h1, h2⟩ := h
  cases hc : d.closed with
  | true => rw [Subscriber.complete_closed d hc]; exact ⟨h1, h2⟩
  | false =>
      constructor
      · simpa [Subscriber.complete, hc] using
          wellFormedLog_append d.delivered Emission.complete (h2 hc)
      · intro hcontra
        simp [Subscriber.complete, hc] at hcontra

theorem sinkInv_observe (n : Notification α ε) (d : Subscriber α ε)
    (h : SinkInv d) : SinkInv (n.observe d) := by
  cases n with
  | next v => exact sinkInv_next d v h
  | error e => exact sinkInv_error d e h
  | complete => exact sinkInv_complete d h

theorem sinkInv_deliver (s : DeMaterializeSubscriber α ε)
    (ev : Emission (Notification α ε) ε) (h : SinkInv s.destination) :
    SinkInv (s.deliver ev).destination := by
  cases hc : s.closed with
  | true => rw [DeMaterializeSubscriber.deliver_closed s ev hc]; exact h
  | false =>
      cases ev with
      | next n =>
          simp [DeMaterializeSubscriber.deliver, DeMaterializeSubscriber.next, hc]
          exact sinkInv_observe n s.destination h
      | error e =>
          simp [DeMaterializeSubscriber.deliver, DeMaterializeSubscriber.error, hc]
          exact sinkInv_error s.destination e h
      | complete =>
          simp [DeMaterializeSubscriber.deliver, DeMaterializeSubscriber.complete, hc]
          exact sinkInv_complete s.destination h

theorem sinkInv_run (s : DeMaterializeSubscriber α ε)
    (evs : List (Emission (Notification α ε) ε)) (h : SinkInv s.destination) :
    SinkInv (s.run evs).destination := by
  induction evs generalizing s with
  | nil => exact h
  | cons ev rest ih =>
      rw [DeMaterializeSubscriber.run_cons]
      exact ih (s.deliver ev) (sinkInv_deliver s ev h)

/-- C3: Exactly-one terminal: for every upstream input sequence (any mix of
wrapped Notifications, direct errors and direct completes) and any consumer
behavior, the downstream log is well terminated — at most one terminal event,
with nothing delivered after it; in particular, in the scenario
Next(a), Next(b), Error(e) followed by anything (including an upstream
Complete after the replayed error), the downstream receives exactly
next a, next b, error e. -/
theorem exactly_one_terminal (p : α → Bool)
    (evs : List (Emission (Notification α ε) ε)) (a b : α) (e : ε)
    (tail : List (Emission (Notification α ε) ε)) :
    wellFormedLog
        ((DeMaterializeSubscriber.run ⟨false, ⟨false, [], p⟩⟩ evs).destination.delivered)
      = true
    ∧ (dematerialize freshSubscriber
          ([Emission.next (Notification.next a), Emission.next (Notification.next b),
            Emission.next (Notification.error e)] ++ tail)).destination.delivered
        = [Emission.next a, Emission.next b, Emission.error e] := by
  constructor
  · exact (sinkInv_run ⟨false, ⟨false, [], p⟩⟩ evs ⟨rfl, fun _ => rfl⟩).1
  · unfold dematerialize DeMaterializeOperator.call freshSubscriber
    rw [run_delivered_eq]
    simp [decodeUp, Notification.toEmission, truncAfterTerminal, Emission.isTerminal]

theorem all_truncAfterTerminal (l : List (Emission α ε)) (f : Emission α ε → Bool)
    (h : l.all f = true) : (truncAfterTerminal l).all f = true := by
  induction l with
  | nil => rfl
  | cons x xs ih =>
      simp only [List.all_cons, Bool.and_eq_true] at h
      by_cases ht : x.isTerminal
      · simp [truncAfterTerminal, ht, h.1]
      · simp [truncAfterTerminal, ht, h.1, ih h.2]

theorem truncAfterTerminal_of_allNonTerminal (l : List (Emission α ε))
    (h : l.all (fun x => !x.isTerminal) = true) : truncAfterTerminal l = l := by
  induction l with
  | nil => rfl
  | cons x xs ih =>
      simp only [List.all_cons, Bool.and_eq_true, Bool.not_eq_true'] at h
      simp [truncAfterTerminal, h.1, ih h.2]

/-- C4: Order preservation: for inputs without any error (no Error-kind
Notification, no direct upstream error), the downstream log is exactly the
decoded input truncated after the first terminal — no reordering, no
buffering, no dropping except by the teardown rule; hence the downstream
next-call arguments are, in order, the decoded values of the Next-kind
Notifications, no error is ever delivered, and if the input has no terminal
at all, nothing whatsoever is dropped. -/
theorem order_preservation (evs : List (Emission (Notification α ε) ε))
    (hne : (evs.map decodeUp).all (fun x => !x.isError) = true) :
    (dematerialize freshSubscriber evs).destination.delivered
        = truncAfterTerminal (evs.map decodeUp)
    ∧ nextValues ((dematerialize freshSubscriber evs).destination.delivered)
        = nextValues (truncAfterTerminal (evs.map decodeUp))
    ∧ ((dematerialize freshSubscriber evs).destination.delivered).all
        (fun x => !x.isError) = true
    ∧ ((evs.map decodeUp).all (fun x => !x.isTerminal) = true →
        (dematerialize freshSubscriber evs).destination.delivered = evs.map decodeUp) := by
  have hmain : (dematerialize freshSubscriber evs).destination.delivered
      = truncAfterTerminal (evs.map decodeUp) := by
    unfold dematerialize DeMaterializeOperator.call freshSubscriber
    rw [run_delivered_eq, List.nil_append]
  refine ⟨hmain, by rw [hmain], ?_, ?_⟩
  · rw [hmain]
    exact all_truncAfterTerminal (evs.map decodeUp) _ hne
  · intro hnt
    rw [hmain, truncAfterTerminal_of_allNonTerminal (evs.map decodeUp) hnt]

theorem order_preservation_witness :
    (dematerialize (freshSubscriber : Subscriber Nat Nat)
        [Emission.next (Notification.next 1), Emission.next (Notification.next 2),
         Emission.next Notification.complete]).destination.delivered
      = truncAfterTerminal
          ([Emission.next (Notification.next 1), Emission.next (Notification.next 2),
            Emission.next Notification.complete].map decodeUp) :=
  (order_preservation
    [Emission.next (Notification.next 1), Emission.next (Notification.next 2),
     Emission.next Notification.complete] (by decide)).1

/-- C5: Only the Next handler is overridden: a direct (unwrapped) upstream
error reaching an Active dematerialize subscriber is forwarded unchanged to
the downstream error channel, and a direct upstream complete unchanged to the
downstream complete channel, by the inherited default behavior — the payload
appears verbatim in the downstream log, with no decoding applied. -/
theorem direct_terminal_passthrough (s : DeMaterializeSubscriber α ε) (e : ε)
    (hs : s.closed = false) (hd : s.destination.closed = false) :
    (s.error e).destination.delivered = s.destination.delivered ++ [Emission.error e]
    ∧ (s.error e).closed = true
    ∧ s.complete.destination.delivered = s.destination.delivered ++ [Emission.complete]
    ∧ s.complete.closed = true := by
  simp [DeMaterializeSubscriber.error, DeMaterializeSubscriber.complete,
    Subscriber.error, Subscriber.complete, hs, hd]

theorem direct_terminal_passthrough_witness :
    ((DeMaterializeOperator.call ⟨⟩ (freshSubscriber : Subscriber Nat Nat)).error 7
      ).destination.delivered = [Emission.error 7]
    ∧ ((DeMaterializeOperator.call ⟨⟩ (freshSubscriber : Subscriber Nat Nat)).error 7
      ).closed = true
    ∧ ((DeMaterializeOperator.call ⟨⟩ (freshSubscriber : Subscriber Nat Nat)).complete
      ).destination.delivered = [Emission.complete]
    ∧ ((DeMaterializeOperator.call ⟨⟩ (freshSubscriber : Subscriber Nat Nat)).complete
      ).closed = true :=
  direct_terminal_passthrough
    (DeMaterializeOperator.call ⟨⟩ (freshSubscriber : Subscriber Nat Nat)) 7 rfl rfl

/-- C9: Precondition violation behavior: an Active dematerialize subscriber
receiving a non-Notification raw value on the next channel performs no
validation — the resulting runtime TypeError propagates out uncaught; and
whenever the value is a well-formed Notification the error branch is
unreachable, the delivery always succeeding with the normal next behavior. -/
theorem precondition_violation (s : DeMaterializeSubscriber α ε)
    (hs : s.closed = false) :
    s.nextRaw RawValue.other = Except.error JsError.typeError
    ∧ ∀ n : Notification α ε, s.nextRaw (RawValue.notif n) = Except.ok (s.next n) := by
  constructor
  · simp [DeMaterializeSubscriber.nextRaw, hs]
  · intro n
    simp [DeMaterializeSubscriber.nextRaw, DeMaterializeSubscriber.next, hs]

theorem precondition_violation_witness :
    (DeMaterializeOperator.call ⟨⟩ (freshSubscriber : Subscriber Nat Nat)).nextRaw
        RawValue.other = Except.error JsError.typeError
    ∧ (DeMaterializeOperator.call ⟨⟩ (freshSubscriber : Subscriber Nat Nat)).nextRaw
        (RawValue.notif (Notification.next 5))
      = Except.ok
          ((DeMaterializeOperator.call ⟨⟩ (freshSubscriber : Subscriber Nat Nat)).next
            (Notification.next 5)) :=
  ⟨(precondition_violation (DeMaterializeOperator.call ⟨⟩ freshSubscriber) rfl).1,
   (precondition_violation (DeMaterializeOperator.call ⟨⟩ freshSubscriber) rfl).2
     (Notification.next 5)⟩

/-- C10: Replay bypasses the intermediate subscriber: the next handler
replays each Notification directly onto the destination, leaving the
dematerialize subscriber's own closed state untouched; after replaying an
Error-kind Notification the dematerialize subscriber is still Active while
the destination is Closed, and the suppression of every later replay comes
entirely from the destination's own closed check. -/
theorem replay_bypasses_self (s : DeMaterializeSubscriber α ε)
    (n : Notification α ε) (e : ε)
    (hs : s.closed = false) (hd : s.destination.closed = false) :
    ((s.next n).destination = n.observe s.destination ∧ (s.next n).closed = false)
    ∧ ((s.next (Notification.error e)).closed = false
       ∧ (s.next (Notification.error e)).destination.closed = true
       ∧ ∀ m : Notification α ε,
           ((s.next (Notification.error e)).next m).destination.delivered
             = (s.next (Notification.error e)).destination.delivered) := by
  have hself : ∀ k : Notification α ε,
      (s.next k).destination = k.observe s.destination ∧ (s.next k).closed = false := by
    intro k
    simp [DeMaterializeSubscriber.next, hs]
  refine ⟨hself n, ?_, ?_, ?_⟩
  · exact (hself (Notification.error e)).2
  · rw [(hself (Notification.error e)).1]
    simp [Notification.observe, Notification.observeWith, Subscriber.channels,
      Subscriber.error, hd]
  · intro m
    have hdc : (s.next (Notification.error e)).destination.closed = true := by
      rw [(hself (Notification.error e)).1]
      simp [Notification.observe, Notification.observeWith, Subscriber.channels,
        Subscriber.error, hd]
    by_cases hc2 : (s.next (Notification.error e)).closed
    · rw [DeMaterializeSubscriber.next]
      simp [hc2]
    · rw [DeMaterializeSubscriber.next]
      simp [hc2, Notification.observe_closed m _ hdc]

theorem replay_bypasses_self_witness :
    (((DeMaterializeOperator.call ⟨⟩ (freshSubscriber : Subscriber Nat Nat)).next
          (Notification.next 4)).destination
        = (Notification.next 4).observe freshSubscriber
      ∧ ((DeMaterializeOperator.call ⟨⟩ (freshSubscriber : Subscriber Nat Nat)).next
          (Notification.next 4)).closed = false)
    ∧ (((DeMaterializeOperator.call ⟨⟩ (freshSubscriber : Subscriber Nat Nat)).next
          (Notification.error 9)).closed = false
       ∧ ((DeMaterializeOperator.call ⟨⟩ (freshSubscriber : Subscriber Nat Nat)).next
          (Notification.error 9)).destination.closed = true
       ∧ ∀ m : Notification Nat Nat,
           (((DeMaterializeOperator.call ⟨⟩ (freshSubscriber : Subscriber Nat Nat)).next
                (Notification.error 9)).next m).destination.delivered
             = ((DeMaterializeOperator.call ⟨⟩ (freshSubscriber : Subscriber Nat Nat)).next
                (Notification.error 9)).destination.delivered) :=
  replay_bypasses_self (DeMaterializeOperator.call ⟨⟩ (freshSubscriber : Subscriber Nat Nat))
    (Notification.next 4) 9 rfl rfl
